import Mathlib

/-!
Shallow embedding of the Flipper databases plugin core
(src/desktop/plugins/public/databases/index.tsx).

The plugin keeps a single mutable view-model state (DatabasesPluginState)
and updates it through pure transition functions. JavaScript null and
undefined are both modelled as Option.none; JavaScript numbers that the
code treats as integers (ids, row offsets, counts) are modelled as Int.
Array accesses that would yield undefined in JavaScript are modelled as
Option-valued lookups, and transitions that would dereference undefined
(a thrown TypeError) return Except.error.
-/

namespace Databases

/-- Modelled from the spec (section 3): the tagged scalar value union is the
Value type imported from the flipper package, which is not under src/. The
code only inspects the type tag and the raw value of boolean and string
cells, which this closed inductive captures. -/
inductive Value
  | vnull
  | boolean (b : Bool)
  | number (n : Int)
  | bigint (n : Int)
  | string (s : String)
  | bytes (bs : List Nat)
  | unknown
deriving DecidableEq, Repr

/-- Query record: the SQL editor buffer text plus a timestamp string. -/
structure Query where
  value : String
  time : String
deriving DecidableEq, Repr

/-- One fetched window of a table, as assembled by the getTableData
response handler. -/
structure Page where
  databaseId : Int
  table : String
  columns : List String
  rows : List (List Value)
  start : Int
  count : Int
  total : Int
  highlightedRows : List Int
deriving DecidableEq, Repr

/-- Column and index metadata for the selected table. -/
structure Structure where
  databaseId : Int
  table : String
  columns : List String
  rows : List (List Value)
  indexesColumns : List String
  indexesValues : List (List Value)
deriving DecidableEq, Repr

/-- Result table of a select query. -/
structure QueriedTable where
  columns : List String
  rows : List (List Value)
  highlightedRows : List Int
deriving DecidableEq, Repr

/-- Result of a remote execute call: the three fields are number-or-null
in the source and at most one is populated by the display functions. -/
structure QueryResult where
  table : Option QueriedTable
  id : Option Int
  count : Option Int
deriving DecidableEq, Repr

/-- One entry of the database list. -/
structure DatabaseEntry where
  id : Int
  name : String
  tables : List String
deriving DecidableEq, Repr

/-- Sort direction of TableRowSortOrder, as used by the code: the reverse
flag sent with a page request is true iff the direction is down. -/
inductive SortDirection
  | up
  | down
deriving DecidableEq, Repr

/-- Modelled from usage: TableRowSortOrder is imported from the flipper
package, which is not under src/. The code reads only the key and the
direction. -/
structure TableRowSortOrder where
  key : String
  direction : SortDirection
deriving DecidableEq, Repr

/-- The five view modes of the plugin. The structure tab is named
structureView here because structure is a Lean keyword. -/
inductive ViewMode
  | data
  | structureView
  | SQL
  | tableInfo
  | queryHistory
deriving DecidableEq, Repr

/-- The single plugin state value held by createState. -/
structure DatabasesPluginState where
  selectedDatabase : Int
  selectedDatabaseTable : Option String
  pageRowNumber : Int
  databases : List DatabaseEntry
  outdatedDatabaseList : Bool
  viewMode : ViewMode
  error : Option String
  currentPage : Option Page
  currentStructure : Option Structure
  currentSort : Option TableRowSortOrder
  query : Option Query
  queryResult : Option QueryResult
  favorites : List String
  executionTime : Int
  tableInfo : String
  queryHistory : List Query
deriving DecidableEq, Repr

/-- The initial state passed to createState. -/
def initState : DatabasesPluginState where
  selectedDatabase := 0
  selectedDatabaseTable := none
  pageRowNumber := 0
  databases := []
  outdatedDatabaseList := true
  viewMode := .data
  error := none
  currentPage := none
  currentStructure := none
  currentSort := none
  query := none
  queryResult := none
  favorites := []
  executionTime := 0
  tableInfo := ""
  queryHistory := []

/-- The fixed page size. -/
def PAGE_SIZE : Int := 50

/-- JavaScript Array.prototype.indexOf: first index of the element, or -1. -/
def jsIndexOf (l : List String) (x : String) : Int :=
  match l with
  | [] => -1
  | a :: as =>
    if a = x then 0
    else
      let r := jsIndexOf as x
      if r < 0 then -1 else r + 1

/-- JavaScript indexed read l[i] for a possibly negative or out-of-range
index: undefined is none. -/
def listAt {α : Type} (l : List α) (i : Int) : Option α :=
  if i < 0 then none else l[i.toNat]?

/-- Read one cell of a structure or page row at a JavaScript index. -/
def getCell (r : List Value) (i : Int) : Option Value :=
  listAt r i

/-- JavaScript splice at indexOf: remove the first occurrence. -/
def removeFirst : List String → String → List String
  | [], _ => []
  | a :: as, x => if a = x then as else a :: removeFirst as x

/-- Stable insertion used to model Array.prototype.sort with the
comparator db1.id - db2.id. -/
def insertById (d : DatabaseEntry) : List DatabaseEntry → List DatabaseEntry
  | [] => [d]
  | e :: es => if d.id ≤ e.id then d :: e :: es else e :: insertById d es

/-- The database list sorted by ascending id (stable, as in V8). -/
def sortById : List DatabaseEntry → List DatabaseEntry
  | [] => []
  | d :: ds => insertById d (sortById ds)

/-- JavaScript truthiness of the selected table (string or null):
false for null, undefined and the empty string. -/
def tableTruthy : Option String → Bool
  | some t => t ≠ ""
  | none => false

/-- The error carried when the code reads the tables field of an
undefined database entry (a thrown TypeError). -/
def tablesOfUndefined : String :=
  "TypeError: cannot read tables of undefined"

/-- The selected database id derived at the start of updateDatabases:
keep the current selection when truthy (nonzero), otherwise the id of
the first entry of the sorted list, or 0 when the list is empty. -/
def derivedSelectedDatabase (event : List DatabaseEntry)
    (s : DatabasesPluginState) : Int :=
  if s.selectedDatabase ≠ 0 then s.selectedDatabase
  else
    match (sortById event).head? with
    | some db => db.id
    | none => 0

/-- The selected table derived by updateDatabases: keep the current
table when truthy and still present in the entry found by the
positional lookup, otherwise the first table of that entry (undefined,
that is none, when the entry has no tables). -/
def chooseTable (cur : Option String) (entry : DatabaseEntry) :
    Option String :=
  match cur with
  | some t => if t ≠ "" ∧ t ∈ entry.tables then some t else entry.tables.head?
  | none => entry.tables.head?

/-- updateDatabases: sort the incoming list by id, derive the selected
database and table, and replace the state. The entry for the selected
database is read positionally as databases[selectedDatabase - 1]; when
that index is out of range the code dereferences undefined and throws. -/
def updateDatabases (event : List DatabaseEntry)
    (s : DatabasesPluginState) : Except String DatabasesPluginState :=
  let databases := sortById event
  let selectedDatabase := derivedSelectedDatabase event s
  match listAt databases (selectedDatabase - 1) with
  | none => .error tablesOfUndefined
  | some entry =>
    let selectedTable := chooseTable s.selectedDatabaseTable entry
    let sameTableSelected :=
      selectedDatabase = s.selectedDatabase ∧
      selectedTable = s.selectedDatabaseTable
    .ok { s with
      databases := databases
      outdatedDatabaseList := false
      selectedDatabase := selectedDatabase
      selectedDatabaseTable := selectedTable
      pageRowNumber := 0
      currentPage := if sameTableSelected then s.currentPage else none
      currentStructure := none
      currentSort := if sameTableSelected then s.currentSort else none }

/-- JavaScript tables[0] || null used by updateSelectedDatabase: both an
absent first table and an empty-string first table yield null. -/
def headOrNull (l : List String) : Option String :=
  match l.head? with
  | some t => if t = "" then none else some t
  | none => none

/-- updateSelectedDatabase: select a database by id, reset the table to
the first table of the entry at position id - 1 (throws when that entry
is undefined), reset pagination and clear page, structure and sort. -/
def updateSelectedDatabase (database : Int)
    (s : DatabasesPluginState) : Except String DatabasesPluginState :=
  match listAt s.databases (database - 1) with
  | none => .error tablesOfUndefined
  | some entry =>
    .ok { s with
      selectedDatabase := database
      selectedDatabaseTable := headOrNull entry.tables
      pageRowNumber := 0
      currentPage := none
      currentStructure := none
      currentSort := none }

/-- updateSelectedDatabaseTable: select a table, reset pagination and
clear page, structure and sort. -/
def updateSelectedDatabaseTable (table : String)
    (s : DatabasesPluginState) : DatabasesPluginState :=
  { s with
    selectedDatabaseTable := some table
    pageRowNumber := 0
    currentPage := none
    currentStructure := none
    currentSort := none }

/-- updateViewMode: set the view mode and clear the error. -/
def updateViewMode (viewMode : ViewMode)
    (s : DatabasesPluginState) : DatabasesPluginState :=
  { s with viewMode := viewMode, error := none }

/-- updatePage: install a fetched page as currentPage. The source
assigns the event unconditionally; there is no comparison of the page
key against the current selection. -/
def updatePage (event : Page) (s : DatabasesPluginState) :
    DatabasesPluginState :=
  { s with currentPage := some event }

/-- updateStructure: install fetched structure metadata. -/
def updateStructure (event : Structure) (s : DatabasesPluginState) :
    DatabasesPluginState :=
  { s with currentStructure := some event }

/-- displaySelect: publish a select result; only the table field of the
query result is populated. -/
def displaySelect (columns : List String) (values : List (List Value))
    (s : DatabasesPluginState) : DatabasesPluginState :=
  { s with queryResult := some ⟨some ⟨columns, values, []⟩, none, none⟩ }

/-- displayInsert: publish an insert result; only the id field of the
query result is populated. -/
def displayInsert (id : Int) (s : DatabasesPluginState) :
    DatabasesPluginState :=
  { s with queryResult := some ⟨none, some id, none⟩ }

/-- displayUpdateDelete: publish an update or delete result; only the
count field of the query result is populated. -/
def displayUpdateDelete (count : Int) (s : DatabasesPluginState) :
    DatabasesPluginState :=
  { s with queryResult := some ⟨none, none, some count⟩ }

/-- updateTableInfo: install the fetched table definition text. -/
def updateTableInfo (tableInfo : String) (s : DatabasesPluginState) :
    DatabasesPluginState :=
  { s with tableInfo := tableInfo }

/-- nextPage: advance the row offset by one page and force a refetch. -/
def nextPage (s : DatabasesPluginState) : DatabasesPluginState :=
  { s with pageRowNumber := s.pageRowNumber + PAGE_SIZE, currentPage := none }

/-- previousPage: retreat the row offset by one page, clamped at 0, and
force a refetch. -/
def previousPage (s : DatabasesPluginState) : DatabasesPluginState :=
  { s with pageRowNumber := max (s.pageRowNumber - PAGE_SIZE) 0
           currentPage := none }

/-- goToRow: clamp the requested row into the valid window of the
currently loaded page and force a refetch; a call with no loaded page
returns early leaving the state unchanged. -/
def goToRow (row : Int) (s : DatabasesPluginState) : DatabasesPluginState :=
  match s.currentPage with
  | none => s
  | some p =>
    let destinationRow :=
      if row < 0 then 0
      else if row ≥ p.total - PAGE_SIZE then max (p.total - PAGE_SIZE) 0
      else row
    { s with pageRowNumber := destinationRow, currentPage := none }

/-- refresh: mark the database list outdated and drop the loaded page. -/
def refresh (s : DatabasesPluginState) : DatabasesPluginState :=
  { s with outdatedDatabaseList := true, currentPage := none }

/-- sortByChanged: set the sort order, reset pagination and force a
refetch. -/
def sortByChanged (sortOrder : TableRowSortOrder)
    (s : DatabasesPluginState) : DatabasesPluginState :=
  { s with currentSort := some sortOrder
           pageRowNumber := 0
           currentPage := none }

/-- updateQuery: replace the query buffer, stamping the current time. -/
def updateQuery (value : String) (now : String)
    (s : DatabasesPluginState) : DatabasesPluginState :=
  { s with query := some ⟨value, now⟩ }

/-- updateFavorites: toggle the current query value in the favorites
list. The working list is the event list when one is given (note that
an empty array is truthy in JavaScript), otherwise the state list; a
present value is removed in place by splice, an absent value is
appended to the state list by concat. The resulting list is also
persisted to local storage, which is outside this model. -/
def updateFavorites (eventFavorites : Option (List String))
    (s : DatabasesPluginState) : DatabasesPluginState :=
  let newFavorites :=
    match eventFavorites with
    | some l => l
    | none => s.favorites
  match s.query with
  | some q =>
    if q.value ∈ newFavorites then
      { s with favorites := removeFirst newFavorites q.value }
    else
      { s with favorites := s.favorites ++ [q.value] }
  | none => { s with favorites := newFavorites }

/-- onFavoritesClicked: the component invokes updateFavorites passing
the current favorites list of the state as the event. -/
def onFavoritesClicked (s : DatabasesPluginState) : DatabasesPluginState :=
  updateFavorites (some s.favorites) s

/-- Typed response of the remote execute call. -/
inductive ExecuteResponse
  | select (columns : List String) (values : List (List Value))
  | insert (insertedId : Int)
  | update_delete (affectedCount : Int)
deriving DecidableEq, Repr

/-- Outcome of the remote execute round trip: the promise either
resolves with a typed response or rejects with an error. -/
inductive ExecuteOutcome
  | success (resp : ExecuteResponse)
  | failure (err : String)
deriving DecidableEq, Repr

/-- The synchronous tail of execute: when the query buffer is non-null,
append a copy of it, restamped with the current time, to the history.
This happens at submission time, before any response arrives. -/
def appendHistory (now : String) (s : DatabasesPluginState) :
    DatabasesPluginState :=
  match s.query with
  | some q => { s with queryHistory := s.queryHistory ++ [⟨q.value, now⟩] }
  | none => s

/-- The response continuation of execute: on success clear the error,
record the elapsed time and dispatch on the response kind to one of the
three display functions; on failure set the error and touch nothing
else. -/
def mergeExecuteResponse (elapsed : Int) (outcome : ExecuteOutcome)
    (s : DatabasesPluginState) : DatabasesPluginState :=
  match outcome with
  | .success resp =>
    let s1 := { s with error := none, executionTime := elapsed }
    match resp with
    | .select columns values => displaySelect columns values s1
    | .insert insertedId => displayInsert insertedId s1
    | .update_delete affectedCount => displayUpdateDelete affectedCount s1
  | .failure e => { s with error := some e }

/-- execute, as the composition of its synchronous history append and
the later response merge. The sent query text and the wall-clock
readings are parameters of the model; the two parts touch disjoint
state fields, so the final state does not depend on their order. -/
def execute (_sentQuery : String) (elapsed : Int) (now : String)
    (outcome : ExecuteOutcome) (s : DatabasesPluginState) :
    DatabasesPluginState :=
  mergeExecuteResponse elapsed outcome (appendHistory now s)

/-- Guard of the page-fetch trigger in the state subscription: fires
when the data tab is shown, no page is loaded, and a database (nonzero
id) and a table (non-null, non-empty name) are selected. -/
def fetchPageDue (s : DatabasesPluginState) : Bool :=
  decide (s.viewMode = ViewMode.data) &&
  decide (s.currentPage = none) &&
  decide (s.selectedDatabase ≠ 0) &&
  tableTruthy s.selectedDatabaseTable

/-- The identifying key captured by an issued page fetch: the selected
database id and table name of the state that triggered it. -/
def pageFetchKey (s : DatabasesPluginState) : Option (Int × String) :=
  if fetchPageDue s then
    match s.selectedDatabaseTable with
    | some t => some (s.selectedDatabase, t)
    | none => none
  else none

/-- Payload of a getTableData response. -/
structure TableDataResponse where
  columns : List String
  values : List (List Value)
  start : Int
  count : Int
  total : Int
deriving DecidableEq, Repr

/-- The getTableData continuation: assemble a Page from the response
and the key captured when the fetch was issued, and install it through
updatePage. The current selection of the state at arrival time is not
consulted. -/
def mergePageResponse (databaseId : Int) (table : String)
    (data : TableDataResponse) (s : DatabasesPluginState) :
    DatabasesPluginState :=
  updatePage
    { databaseId := databaseId
      table := table
      columns := data.columns
      rows := data.values
      start := data.start
      count := data.count
      total := data.total
      highlightedRows := [] } s

/-- The three selection-changing transitions, bundled as one step
relation for stating the selection-reset invariant. -/
inductive SelEvent
  | dbList (dbs : List DatabaseEntry)
  | selDb (id : Int)
  | selTable (t : String)
deriving DecidableEq, Repr

/-- One selection-related transition of the store. -/
def selStep : SelEvent → DatabasesPluginState →
    Except String DatabasesPluginState
  | .dbList dbs, s => updateDatabases dbs s
  | .selDb id, s => updateSelectedDatabase id s
  | .selTable t, s => .ok (updateSelectedDatabaseTable t s)

/-- Outcome of the row-edit handler onRowEdited: a silent early return,
the logged abort of the metadata guard, a thrown TypeError from
dereferencing an undefined cell, or an emitted update carrying the
selected table, the primary-key pairs read from the page row, and the
coerced edit values. -/
inductive RowEditOutcome
  | noop
  | abortLogged
  | crash
  | emitted (table : String) (pk : List (String × Option Value))
      (changes : List (String × Value))
deriving DecidableEq, Repr

/-- The primary-key name accumulation of onRowEdited: for each
structure row, read the primary-key cell (throws when the index is out
of range, including index -1), and when it is boolean true read the
column-name cell (throws likewise) and keep its string value. -/
def primaryNames (pkIdx nameIdx : Int) :
    List (List Value) → Except Unit (List String)
  | [] => .ok []
  | r :: rs =>
    match getCell r pkIdx with
    | none => .error ()
    | some primary =>
      if primary = .boolean true then
        match getCell r nameIdx with
        | none => .error ()
        | some nameV =>
          match primaryNames pkIdx nameIdx rs with
          | .error e => .error e
          | .ok acc =>
            .ok ((match nameV with
                  | .string sv => [sv]
                  | _ => []) ++ acc)
      else primaryNames pkIdx nameIdx rs

/-- Assignment acc[name] = entry on a JavaScript object modelled as an
ordered association list: overwrite in place when the key exists,
append otherwise. -/
def typesInsert (m : List (String × String × Bool)) (k : String)
    (v : String × Bool) : List (String × String × Bool) :=
  if m.any (fun e => e.1 = k) then
    m.map (fun e => if e.1 = k then (k, v) else e)
  else m ++ [(k, v)]

/-- The type and nullability map accumulation of onRowEdited: for each
structure row read the name, type and nullable cells (a read at an out
of range index, including index -1, throws); a column is nullable
unless the nullable cell is boolean false, and a missing nullable
column defaults every row to a null cell, hence nullable. Only rows
with string name and string type contribute. -/
def typesMapGo (nameIdx typeIdx nullableIdx : Int)
    (acc : List (String × String × Bool)) :
    List (List Value) → Except Unit (List (String × String × Bool))
  | [] => .ok acc
  | r :: rs =>
    match getCell r nameIdx with
    | none => .error ()
    | some nameV =>
      match getCell r typeIdx with
      | none => .error ()
      | some typeV =>
        let nullableV : Except Unit Value :=
          if nullableIdx < 0 then .ok .vnull
          else
            match getCell r nullableIdx with
            | none => .error ()
            | some v => .ok v
        match nullableV with
        | .error e => .error e
        | .ok nv =>
          let acc2 :=
            match nameV, typeV with
            | .string n, .string t => typesInsert acc n (t, nv ≠ .boolean false)
            | _, _ => acc
          typesMapGo nameIdx typeIdx nullableIdx acc2 rs

/-- Modelled from the spec (section 4.4 step 5): convertStringToValue
lives in UpdateQueryUtil, which is not under src/. The edited string is
coerced into a typed Value using the declared type and nullability: a
null input is accepted as a null value only for a nullable column (a
failed coercion is skipped with a logged error, modelled as a null
value); integer-typed columns parse the string as a number and other
columns keep the string. -/
def convertStringToValue (types : List (String × String × Bool))
    (key : String) (v : Option String) : Value :=
  match (types.find? (fun e => e.1 = key)).map (fun e => e.2) with
  | none => .vnull
  | some (ty, nullable) =>
    match v with
    | none => if nullable then .vnull else .vnull
    | some str =>
      if ty = "integer" ∨ ty = "number" then
        match str.toInt? with
        | some n => .number n
        | none => .string str
      else .string str

/-- The row-edit handler onRowEdited of the component, modelled up to
the data handed to constructUpdateQuery (which is not under src/): the
emitted outcome carries the selected table, the primary-key pairs read
from the pre-edit page row, and the coerced edit values. -/
def onRowEdited (change : List (String × Option String))
    (s : DatabasesPluginState) : RowEditOutcome :=
  let highlightedRowIdx : Int :=
    match s.currentPage with
    | some p =>
      match p.highlightedRows.head? with
      | some i => i
      | none => -1
    | none => -1
  let row : Option (List Value) :=
    if 0 ≤ highlightedRowIdx then
      match s.currentPage with
      | some p => listAt p.rows highlightedRowIdx
      | none => none
    else none
  match s.viewMode, s.selectedDatabaseTable, s.currentStructure,
      s.currentPage, row with
  | .data, some selectedDatabaseTable, some st, some p, some r =>
    if change = [] then .noop
    else
      let primaryKeyIdx := jsIndexOf st.columns "primary_key"
      let nameKeyIdx := jsIndexOf st.columns "column_name"
      let typeIdx := jsIndexOf st.columns "data_type"
      let nullableIdx := jsIndexOf st.columns "nullable"
      if primaryKeyIdx < 0 ∧ nameKeyIdx < 0 ∧ typeIdx < 0 then
        .abortLogged
      else
        match primaryNames primaryKeyIdx nameKeyIdx st.rows with
        | .error _ => .crash
        | .ok names =>
          let primaryColumnIndexes :=
            ((names.map (jsIndexOf p.columns)).filter (fun i => 0 ≤ i)).map
              Int.toNat
          if primaryColumnIndexes = [] then .noop
          else
            match typesMapGo nameKeyIdx typeIdx nullableIdx [] st.rows with
            | .error _ => .crash
            | .ok types =>
              let changeValue := change.map
                (fun kv => (kv.1, convertStringToValue types kv.1 kv.2))
              .emitted selectedDatabaseTable
                (primaryColumnIndexes.map
                  (fun idx : Nat =>
                    ((p.columns[idx]?).getD "", listAt r (idx : Int))))
                changeValue
  | _, _, _, _, _ => .noop

/-- A loaded page with 120 total rows, used by the concrete claims
about goToRow. -/
def demoPage120 : Page where
  databaseId := 1
  table := "users"
  columns := ["id", "name"]
  rows := [[.number 1, .string "a"]]
  start := 0
  count := 50
  total := 120
  highlightedRows := []

/-- A state holding the 120-row page. -/
def demoState120 : DatabasesPluginState :=
  { initState with
      selectedDatabase := 1
      selectedDatabaseTable := some "users"
      currentPage := some demoPage120 }

/-- A state on the data tab with database 1 and table T1 selected and
no loaded page: the page-fetch trigger fires for key (1, T1). -/
def staleT1State : DatabasesPluginState :=
  { initState with
      selectedDatabase := 1
      selectedDatabaseTable := some "T1" }

/-- The payload of the late getTableData response issued for T1. -/
def lateT1Response : TableDataResponse where
  columns := ["c"]
  values := [[.number 1]]
  start := 0
  count := 1
  total := 1

/-- A database list whose ids are not contiguous from 1: sorted by id it
is the entry with id 2 followed by the entry with id 5. -/
def gapDbList : List DatabaseEntry :=
  [⟨2, "A", ["a"]⟩, ⟨5, "B", ["b"]⟩]

/-- A state whose query buffer holds Q while the favorites list holds Q
twice. -/
def dupFavState : DatabasesPluginState :=
  { initState with
      query := some ⟨"Q", "t0"⟩
      favorites := ["Q", "Q"] }

/-- Structure metadata missing the primary_key column while column_name
and data_type are present. -/
def noPkStructure : Structure where
  databaseId := 1
  table := "users"
  columns := ["column_name", "data_type"]
  rows := [[.string "id", .string "integer"]]
  indexesColumns := []
  indexesValues := []

/-- A loaded page with one highlighted row, paired with the structure
that lacks the primary_key column. -/
def noPkPage : Page where
  databaseId := 1
  table := "users"
  columns := ["id", "name"]
  rows := [[.number 7, .string "Alice"]]
  start := 0
  count := 1
  total := 1
  highlightedRows := [0]

/-- A data-tab state satisfying every precondition of the row edit,
whose structure lacks the primary_key column. -/
def noPkState : DatabasesPluginState :=
  { initState with
      selectedDatabase := 1
      selectedDatabaseTable := some "users"
      currentStructure := some noPkStructure
      currentPage := some noPkPage }

/-- The page assembled from the late T1 response. -/
def stalePageT1 : Page where
  databaseId := 1
  table := "T1"
  columns := ["c"]
  rows := [[.number 1]]
  start := 0
  count := 1
  total := 1
  highlightedRows := []

/-- A state whose query buffer holds Q and whose favorites list is
empty. -/
def emptyFavQState : DatabasesPluginState :=
  { initState with query := some ⟨"Q", "t0"⟩ }

/-- A state whose query buffer holds the text A, ready for submission. -/
def queryAState : DatabasesPluginState :=
  { initState with query := some ⟨"A", "t0"⟩ }

/-- Removing an absent element leaves the list unchanged. -/
theorem removeFirst_of_not_mem (l : List String) (v : String)
    (h : v ∉ l) : removeFirst l v = l := by
  induction l with
  | nil => rfl
  | cons a as ih =>
    simp only [List.mem_cons, not_or] at h
    have hav : ¬a = v := fun hav => h.1 hav.symm
    simp only [removeFirst, if_neg hav]
    rw [ih h.2]

/-- Removing a freshly appended element from a list that did not contain
it restores the original list. -/
theorem removeFirst_append_self (l : List String) (v : String)
    (h : v ∉ l) : removeFirst (l ++ [v]) v = l := by
  induction l with
  | nil => simp [removeFirst]
  | cons a as ih =>
    simp only [List.mem_cons, not_or] at h
    have hav : ¬a = v := fun hav => h.1 hav.symm
    simp only [List.cons_append, removeFirst, if_neg hav, List.append_eq]
    rw [ih h.2]

/-- When an element occurs at most once, removing its first occurrence
removes it entirely. -/
theorem not_mem_removeFirst (l : List String) (v : String)
    (h : l.count v ≤ 1) : v ∉ removeFirst l v := by
  induction l with
  | nil => simp [removeFirst]
  | cons a as ih =>
    by_cases hav : a = v
    · subst hav
      simp only [removeFirst, if_pos rfl]
      simp only [List.count_cons_self] at h
      have : as.count a = 0 := by omega
      exact (List.count_eq_zero).mp this
    · simp only [removeFirst, if_neg hav, List.mem_cons, not_or]
      refine ⟨fun hva => hav hva.symm, ih ?_⟩
      simpa [List.count_cons, hav] using h

/-- The favorites list and query buffer after one favorites click:
remove the query value when present, otherwise append it; the query
buffer itself is untouched. -/
theorem onFavoritesClicked_favorites (s : DatabasesPluginState)
    (q : Query) (hq : s.query = some q) :
    (onFavoritesClicked s).favorites =
      (if q.value ∈ s.favorites then removeFirst s.favorites q.value
       else s.favorites ++ [q.value]) ∧
    (onFavoritesClicked s).query = some q := by
  simp only [onFavoritesClicked, updateFavorites, hq]
  split <;> simp_all

/-- The head of a list is a member, and a headless list is empty. -/
theorem head_mem_or_nil (l : List String) :
    (∃ t, l.head? = some t ∧ t ∈ l) ∨ (l.head? = none ∧ l = []) := by
  cases l with
  | nil => exact Or.inr ⟨rfl, rfl⟩
  | cons a as => exact Or.inl ⟨a, rfl, List.mem_cons_self a as⟩

/-- The table chosen by updateDatabases is a member of the table list of
the entry found by the positional lookup, or none when that list is
empty. -/
theorem chooseTable_spec (cur : Option String) (entry : DatabaseEntry) :
    (∃ t, chooseTable cur entry = some t ∧ t ∈ entry.tables) ∨
    (chooseTable cur entry = none ∧ entry.tables = []) := by
  cases cur with
  | none => simpa [chooseTable] using head_mem_or_nil entry.tables
  | some t =>
    by_cases hc : t ≠ "" ∧ t ∈ entry.tables
    · exact Or.inl ⟨t, by simp [chooseTable, if_pos hc], hc.2⟩
    · simpa [chooseTable, if_neg hc] using head_mem_or_nil entry.tables

/-- Reading any index of an empty list yields none. -/
theorem listAt_nil {α : Type} (i : Int) : listAt ([] : List α) i = none := by
  unfold listAt
  split <;> rfl

/-- Reading a negative or past-the-end index yields none. -/
theorem listAt_none {α : Type} (l : List α) (i : Int)
    (h : i < 0 ∨ (l.length : Int) ≤ i) : listAt l i = none := by
  unfold listAt
  split
  · rfl
  · rename_i hge
    apply List.getElem?_eq_none
    omega

/-- C1 counterexample: with database 1 and table T1 selected on the data
tab and no page loaded, the page-fetch trigger fires with key (1, T1);
after the selection changes to T2, merging the late T1 response still
installs it as currentPage, so currentPage carries table T1 while the
selection current at merge time is T2. The claim that the late response
is discarded is false of the code. -/
theorem stale_page_response_installed_cex :
    fetchPageDue staleT1State = true ∧
    pageFetchKey staleT1State = some (1, "T1") ∧
    (mergePageResponse 1 "T1" lateT1Response
      (updateSelectedDatabaseTable "T2" staleT1State)).selectedDatabaseTable =
      some "T2" ∧
    (mergePageResponse 1 "T1" lateT1Response
      (updateSelectedDatabaseTable "T2" staleT1State)).currentPage.map
        Page.table = some "T1" ∧
    some "T1" ≠ some "T2" := by
  refine ⟨rfl, rfl, rfl, rfl, by decide⟩

/-- C1 (amended): the code does not discard stale responses. updatePage
installs the response page unconditionally, without comparing its
databaseId and table against the current selection, so even a response
whose table no longer matches the selection becomes currentPage while
the selection is left as it was. -/
theorem updatePage_installs_stale_response (s : DatabasesPluginState)
    (p : Page) (_hstale : s.selectedDatabaseTable ≠ some p.table) :
    (updatePage p s).currentPage = some p ∧
    (updatePage p s).selectedDatabase = s.selectedDatabase ∧
    (updatePage p s).selectedDatabaseTable = s.selectedDatabaseTable :=
  ⟨rfl, rfl, rfl⟩

/-- Witness for the amended C1 theorem at the concrete stale merge. -/
theorem updatePage_installs_stale_response_witness :
    (updatePage stalePageT1
      (updateSelectedDatabaseTable "T2" staleT1State)).currentPage =
      some stalePageT1 ∧
    (updatePage stalePageT1
      (updateSelectedDatabaseTable "T2" staleT1State)).selectedDatabase =
      (updateSelectedDatabaseTable "T2" staleT1State).selectedDatabase ∧
    (updatePage stalePageT1
      (updateSelectedDatabaseTable "T2" staleT1State)).selectedDatabaseTable =
      (updateSelectedDatabaseTable "T2" staleT1State).selectedDatabaseTable :=
  updatePage_installs_stale_response
    (updateSelectedDatabaseTable "T2" staleT1State) stalePageT1 (by decide)

/-- C2: the claim says that when any one of the structure columns named
primary_key, column_name or data_type cannot be located, the build
aborts with a logged error and no statement. The guard in the source
combines the three absence tests with a conjunction, so it aborts only
when all three are missing: at this input primary_key is missing while
column_name and data_type are present, the guard is passed, and the
build dereferences the cell at index -1, which throws a TypeError
instead of the claimed logged abort. -/
theorem onRowEdited_missing_primary_key_crashes :
    jsIndexOf noPkStructure.columns "primary_key" = -1 ∧
    0 ≤ jsIndexOf noPkStructure.columns "column_name" ∧
    0 ≤ jsIndexOf noPkStructure.columns "data_type" ∧
    onRowEdited [("name", some "Bob")] noPkState = .crash ∧
    onRowEdited [("name", some "Bob")] noPkState ≠ .abortLogged := by
  refine ⟨by decide, by decide, by decide, by decide, by decide⟩

/-- C6: goToRow with a loaded page of total rows T sets pageRowNumber to
the requested row clamped into the interval from 0 to max (T - 50) 0
and nulls currentPage; with T = 120, goToRow 1000 yields 70 and
goToRow (-5) yields 0; with no loaded page goToRow leaves the state
unchanged. -/
theorem goToRow_clamps (s : DatabasesPluginState) (p : Page) (row : Int)
    (hp : s.currentPage = some p) :
    ((goToRow row s).pageRowNumber =
        min (max row 0) (max (p.total - PAGE_SIZE) 0) ∧
      (goToRow row s).currentPage = none) ∧
    (goToRow 1000 demoState120).pageRowNumber = 70 ∧
    (goToRow (-5) demoState120).pageRowNumber = 0 ∧
    ∀ s2 : DatabasesPluginState, s2.currentPage = none → goToRow row s2 = s2 := by
  refine ⟨?_, by decide, by decide, ?_⟩
  · simp only [goToRow, hp]
    constructor
    · dsimp only
      split
      · rename_i h1
        simp only [PAGE_SIZE]
        omega
      · split
        · rename_i h1 h2
          simp only [PAGE_SIZE] at h2 ⊢
          omega
        · rename_i h1 h2
          simp only [PAGE_SIZE] at h2 ⊢
          omega
    · trivial
  · intro s2 h2
    simp only [goToRow, h2]

/-- Witness for the goToRow theorem at the concrete 120-row page. -/
theorem goToRow_clamps_witness :
    (((goToRow 1000 demoState120).pageRowNumber =
        min (max 1000 0) (max (demoPage120.total - PAGE_SIZE) 0) ∧
      (goToRow 1000 demoState120).currentPage = none) ∧
    (goToRow 1000 demoState120).pageRowNumber = 70 ∧
    (goToRow (-5) demoState120).pageRowNumber = 0 ∧
    ∀ s2 : DatabasesPluginState, s2.currentPage = none →
      goToRow 1000 s2 = s2) :=
  goToRow_clamps demoState120 demoPage120 1000 rfl

/-- C9: updateViewMode sets the view mode, clears the error, and leaves
every other state field unchanged. -/
theorem updateViewMode_frame (s : DatabasesPluginState) (m : ViewMode) :
    (updateViewMode m s).viewMode = m ∧
    (updateViewMode m s).error = none ∧
    (updateViewMode m s).selectedDatabase = s.selectedDatabase ∧
    (updateViewMode m s).selectedDatabaseTable = s.selectedDatabaseTable ∧
    (updateViewMode m s).pageRowNumber = s.pageRowNumber ∧
    (updateViewMode m s).databases = s.databases ∧
    (updateViewMode m s).outdatedDatabaseList = s.outdatedDatabaseList ∧
    (updateViewMode m s).currentPage = s.currentPage ∧
    (updateViewMode m s).currentStructure = s.currentStructure ∧
    (updateViewMode m s).currentSort = s.currentSort ∧
    (updateViewMode m s).query = s.query ∧
    (updateViewMode m s).queryResult = s.queryResult ∧
    (updateViewMode m s).favorites = s.favorites ∧
    (updateViewMode m s).executionTime = s.executionTime ∧
    (updateViewMode m s).tableInfo = s.tableInfo ∧
    (updateViewMode m s).queryHistory = s.queryHistory :=
  ⟨rfl, rfl, rfl, rfl, rfl, rfl, rfl, rfl, rfl, rfl, rfl, rfl, rfl, rfl,
    rfl, rfl⟩

/-- C3 counterexample: with the id-sorted list holding ids 2 and 5 and
no prior selection, updateDatabases succeeds with selectedDatabase 2,
but the positional lookup read the entry at index 1, whose id is 5, so
the resulting selectedDatabaseTable is b while the table list of the
database identified by selectedDatabase 2 is the singleton a: the
resulting table is neither a member of that list nor none. -/
theorem updateDatabases_table_from_wrong_database_cex :
    ((updateDatabases gapDbList initState).toOption.map
      (fun s2 => (s2.selectedDatabase, s2.selectedDatabaseTable,
        s2.databases.find? (fun d => d.id == 2)))) =
      some (2, some "b", some ⟨2, "A", ["a"]⟩) ∧
    ¬ ("b" ∈ (["a"] : List String)) ∧ some "b" ≠ (none : Option String) := by
  refine ⟨by decide, by decide, by decide⟩

/-- C3 (amended): after a successful updateDatabases call, the resulting
selectedDatabaseTable is a member of the table list of the database
entry at 1-based position selectedDatabase of the id-sorted list (the
positional lookup the code performs), or none when that table list is
empty. This coincides with the database identified by the resulting
selectedDatabase only when that entry carries id equal to its
position. -/
theorem updateDatabases_table_member_of_positional_entry
    (event : List DatabaseEntry) (s s2 : DatabasesPluginState)
    (h : updateDatabases event s = .ok s2) :
    ∃ entry, listAt s2.databases (s2.selectedDatabase - 1) = some entry ∧
      ((∃ t, s2.selectedDatabaseTable = some t ∧ t ∈ entry.tables) ∨
        (s2.selectedDatabaseTable = none ∧ entry.tables = [])) := by
  simp only [updateDatabases] at h
  split at h
  · exact absurd h (by simp)
  · rename_i entry heq
    injection h with h
    subst h
    exact ⟨entry, heq, chooseTable_spec s.selectedDatabaseTable entry⟩

/-- Witness for the amended C3 theorem: a successful call on a list with
a single database of id 1 selects its only table. -/
theorem updateDatabases_table_member_witness :
    ∃ entry,
      listAt
        (match updateDatabases [⟨1, "A", ["a"]⟩] initState with
          | .ok s2 => s2
          | .error _ => initState).databases
        ((match updateDatabases [⟨1, "A", ["a"]⟩] initState with
          | .ok s2 => s2
          | .error _ => initState).selectedDatabase - 1) = some entry ∧
      ((∃ t,
          (match updateDatabases [⟨1, "A", ["a"]⟩] initState with
            | .ok s2 => s2
            | .error _ => initState).selectedDatabaseTable = some t ∧
          t ∈ entry.tables) ∨
        ((match updateDatabases [⟨1, "A", ["a"]⟩] initState with
          | .ok s2 => s2
          | .error _ => initState).selectedDatabaseTable = none ∧
          entry.tables = [])) :=
  updateDatabases_table_member_of_positional_entry [⟨1, "A", ["a"]⟩]
    initState _ rfl

/-- C10 counterexample: the claim says that when the ids of the incoming
list are not contiguous from 1 the positional lookup yields no entry
and the tables access fails. With ids 2 and 5 and no prior selection,
the derived selected id is 2, the lookup at index 1 yields the entry
with id 5, and the call succeeds, producing a new state. -/
theorem updateDatabases_noncontiguous_ids_succeeds_cex :
    (sortById gapDbList).map DatabaseEntry.id = [2, 5] ∧
    ((sortById gapDbList).map DatabaseEntry.id ≠ [1, 2]) ∧
    derivedSelectedDatabase gapDbList initState = 2 ∧
    ((sortById gapDbList).length : Int) = 2 ∧
    (updateDatabases gapDbList initState).isOk = true := by
  refine ⟨by decide, by decide, by decide, by decide, by decide⟩

/-- C10 (amended): the positional lookup of updateDatabases fails with a
TypeError, producing no new state, exactly in the out-of-range cases:
whenever the derived selected id is at most 0 or exceeds the length of
the sorted list, and in particular whenever the incoming list is
empty. Non-contiguous ids whose derived id is within range do not make
the lookup fail. -/
theorem updateDatabases_lookup_failure (event : List DatabaseEntry)
    (s : DatabasesPluginState)
    (h : derivedSelectedDatabase event s ≤ 0 ∨
      ((sortById event).length : Int) < derivedSelectedDatabase event s ∨
      event = []) :
    updateDatabases event s = .error tablesOfUndefined := by
  have hnone : listAt (sortById event)
      (derivedSelectedDatabase event s - 1) = none := by
    rcases h with h | h | h
    · exact listAt_none _ _ (Or.inl (by omega))
    · exact listAt_none _ _ (Or.inr (by omega))
    · subst h
      exact listAt_nil _
  simp only [updateDatabases, hnone]

/-- Witness for the amended C10 theorem: the call on the empty list
throws. -/
theorem updateDatabases_lookup_failure_witness :
    updateDatabases [] initState = .error tablesOfUndefined :=
  updateDatabases_lookup_failure [] initState (Or.inr (Or.inr rfl))

/-- C5: every selection transition (updateDatabases,
updateSelectedDatabase, updateSelectedDatabaseTable) that succeeds and
whose result changes selectedDatabase or selectedDatabaseTable yields a
state with pageRowNumber 0, currentPage none and currentStructure none,
and currentSort none when the database changed. -/
theorem selection_change_resets_page_state (e : SelEvent)
    (s s2 : DatabasesPluginState) (h : selStep e s = .ok s2)
    (hchanged : s2.selectedDatabase ≠ s.selectedDatabase ∨
      s2.selectedDatabaseTable ≠ s.selectedDatabaseTable) :
    s2.pageRowNumber = 0 ∧ s2.currentPage = none ∧
    s2.currentStructure = none ∧
    (s2.selectedDatabase ≠ s.selectedDatabase → s2.currentSort = none) := by
  cases e with
  | dbList dbs =>
    simp only [selStep, updateDatabases] at h
    split at h
    · exact absurd h (by simp)
    · rename_i entry heq
      injection h with h
      subst h
      by_cases hsame : derivedSelectedDatabase dbs s = s.selectedDatabase ∧
          chooseTable s.selectedDatabaseTable entry = s.selectedDatabaseTable
      · exact absurd hchanged (by simp [hsame.1, hsame.2])
      · simp [if_neg hsame]
  | selDb id =>
    simp only [selStep, updateSelectedDatabase] at h
    split at h
    · exact absurd h (by simp)
    · injection h with h
      subst h
      exact ⟨rfl, rfl, rfl, fun _ => rfl⟩
  | selTable t =>
    simp only [selStep] at h
    injection h with h
    subst h
    exact ⟨rfl, rfl, rfl, fun _ => rfl⟩

/-- Witness for the selection-reset theorem: selecting a different table
resets pagination, page and structure. -/
theorem selection_change_resets_page_state_witness :
    (updateSelectedDatabaseTable "other" demoState120).pageRowNumber = 0 ∧
    (updateSelectedDatabaseTable "other" demoState120).currentPage = none ∧
    (updateSelectedDatabaseTable "other" demoState120).currentStructure =
      none ∧
    ((updateSelectedDatabaseTable "other" demoState120).selectedDatabase ≠
        demoState120.selectedDatabase →
      (updateSelectedDatabaseTable "other" demoState120).currentSort =
        none) :=
  selection_change_resets_page_state (.selTable "other") demoState120
    (updateSelectedDatabaseTable "other" demoState120) rfl
    (Or.inr (by decide))

/-- C4 counterexample: with the query value Q occurring twice in the
favorites list, each click removes one occurrence, so two clicks in
succession remove Q entirely: the membership of Q is not restored to
what it was before the first call. -/
theorem toggle_twice_duplicate_favorites_cex :
    dupFavState.query = some ⟨"Q", "t0"⟩ ∧
    "Q" ∈ dupFavState.favorites ∧
    (onFavoritesClicked (onFavoritesClicked dupFavState)).favorites = [] ∧
    "Q" ∉ (onFavoritesClicked (onFavoritesClicked dupFavState)).favorites := by
  refine ⟨rfl, by decide, by decide, by decide⟩

/-- C4 (amended): when the query value occurs at most once in the
favorites list (in particular always when updateFavorites alone built
the list, which never introduces duplicates), two clicks in succession
restore the membership of that value, and starting from an empty
favorites list two clicks return to the empty list. -/
theorem toggle_twice_membership (s : DatabasesPluginState) (q : Query)
    (hq : s.query = some q) (hcount : s.favorites.count q.value ≤ 1) :
    ((q.value ∈ (onFavoritesClicked (onFavoritesClicked s)).favorites) ↔
      (q.value ∈ s.favorites)) ∧
    (s.favorites = [] →
      (onFavoritesClicked (onFavoritesClicked s)).favorites = []) := by
  obtain ⟨hf1, hq1⟩ := onFavoritesClicked_favorites s q hq
  obtain ⟨hf2, _⟩ := onFavoritesClicked_favorites (onFavoritesClicked s) q hq1
  by_cases hv : q.value ∈ s.favorites
  · rw [if_pos hv] at hf1
    have hnot : q.value ∉ (onFavoritesClicked s).favorites := by
      rw [hf1]
      exact not_mem_removeFirst s.favorites q.value hcount
    rw [if_neg hnot] at hf2
    constructor
    · rw [hf2]
      simp [hv]
    · intro hemp
      exact absurd hv (by simp [hemp])
  · rw [if_neg hv] at hf1
    have hmem : q.value ∈ (onFavoritesClicked s).favorites := by
      rw [hf1]
      simp
    rw [if_pos hmem, hf1] at hf2
    rw [hf2, removeFirst_append_self s.favorites q.value hv]
    exact ⟨Iff.rfl, fun hemp => hemp⟩

/-- Witness for the amended C4 theorem: toggling Q twice from the empty
favorites list leaves membership unchanged and returns the empty
list. -/
theorem toggle_twice_membership_witness :
    (("Q" ∈ (onFavoritesClicked (onFavoritesClicked emptyFavQState)).favorites) ↔
      ("Q" ∈ emptyFavQState.favorites)) ∧
    (emptyFavQState.favorites = [] →
      (onFavoritesClicked (onFavoritesClicked emptyFavQState)).favorites =
        []) :=
  toggle_twice_membership emptyFavQState ⟨"Q", "t0"⟩ rfl (by decide)

/-- C7: whenever the query buffer is non-empty at submission, execute
appends exactly one entry holding the buffer text to the query history,
independently of whether the remote execution succeeds or fails; and
submitting A (failing remotely) then B (succeeding) yields the history
A, B in submission order. -/
theorem execute_appends_history (s : DatabasesPluginState) (q : Query)
    (sentQuery : String) (elapsed : Int) (now : String)
    (outcome : ExecuteOutcome) (hq : s.query = some q)
    (_hne : q.value ≠ "") :
    ((execute sentQuery elapsed now outcome s).queryHistory =
      s.queryHistory ++ [⟨q.value, now⟩]) ∧
    ((execute "B" 0 "t3" (.success (.insert 1))
        (updateQuery "B" "t2" (execute "A" 7 "t1" (.failure "boom")
          queryAState))).queryHistory.map Query.value = ["A", "B"]) := by
  constructor
  · cases outcome with
    | success resp =>
      cases resp <;>
        simp [execute, mergeExecuteResponse, appendHistory, hq,
          displaySelect, displayInsert, displayUpdateDelete]
    | failure e =>
      simp [execute, mergeExecuteResponse, appendHistory, hq]
  · decide

/-- Witness for the history-append theorem at a concrete failing
submission. -/
theorem execute_appends_history_witness :
    ((execute "A" 7 "t1" (.failure "boom") queryAState).queryHistory =
      queryAState.queryHistory ++ [⟨"A", "t1"⟩]) ∧
    ((execute "B" 0 "t3" (.success (.insert 1))
        (updateQuery "B" "t2" (execute "A" 7 "t1" (.failure "boom")
          queryAState))).queryHistory.map Query.value = ["A", "B"]) :=
  execute_appends_history queryAState ⟨"A", "t0"⟩ "A" 7 "t1"
    (.failure "boom") rfl (by decide)

/-- C8: on remote failure execute sets the error and leaves queryResult
at its pre-call value; on remote success it clears the error and,
according to the response kind, populates exactly one of the three
query-result fields (the result table for select, the inserted id for
insert, the affected count for update_delete), the other two being
none. -/
theorem execute_outcome_state (s : DatabasesPluginState)
    (sentQuery : String) (elapsed : Int) (now : String) (e : String)
    (columns : List String) (values : List (List Value))
    (insertedId affectedCount : Int) :
    ((execute sentQuery elapsed now (.failure e) s).error = some e ∧
      (execute sentQuery elapsed now (.failure e) s).queryResult =
        s.queryResult) ∧
    ((execute sentQuery elapsed now
        (.success (.select columns values)) s).error = none ∧
      (execute sentQuery elapsed now
        (.success (.select columns values)) s).queryResult =
        some ⟨some ⟨columns, values, []⟩, none, none⟩) ∧
    ((execute sentQuery elapsed now
        (.success (.insert insertedId)) s).error = none ∧
      (execute sentQuery elapsed now
        (.success (.insert insertedId)) s).queryResult =
        some ⟨none, some insertedId, none⟩) ∧
    ((execute sentQuery elapsed now
        (.success (.update_delete affectedCount)) s).error = none ∧
      (execute sentQuery elapsed now
        (.success (.update_delete affectedCount)) s).queryResult =
        some ⟨none, none, some affectedCount⟩) := by
  cases hq : s.query <;>
    simp [execute, mergeExecuteResponse, appendHistory, hq, displaySelect,
      displayInsert, displayUpdateDelete]

end Databases
